import Mathlib

/-!
Shallow embedding of the keyword-search-monitor pipeline
(`run_keywords.py`, `google_search_tool.py`, `send_telegram_pending.py`)
and proofs about its deduplication / notification behaviour.

External collaborators (the HTTP search providers and the Telegram send
primitive) are modelled as oracle functions passed in as parameters;
file-system state is passed explicitly.  Modelling conventions:

* Python falsy strings: a credential or url that is unset/empty is the
  empty string `""` (Python `if not x` on a string).
* JSON documents: a stored document is either parsed (`Parsed.ok`) or
  unparseable (`Parsed.corrupt`, covering `json.JSONDecodeError` and a
  non-list top-level value).
* Exceptions raised by the code are `Except.error` values; exceptions of
  the external HTTP clients likewise.
* The Telegram send oracle takes the 1-based index of the pending entry
  (the `enumerate(pending, 1)` counter) and the message text and returns
  the `(success, error_message)` pair of `_send_one_telegram_message`;
  the index argument lets one run model distinct outcomes for distinct
  sends, machining the external nondeterminism of the HTTP call.
* `time.sleep` and progress prints are ignored; the user-visible final
  report of each operation is captured by a small inductive type.
-/

namespace KeywordMonitor

/-- One search result as assembled by `google_search_tool`
(dict keys `link`, `title`, `snippet`, `display_link`). -/
structure SearchResult where
  link : String
  title : String
  snippet : String
  display_link : String
deriving DecidableEq, Repr

/-- One entry of `output/activity.json` (see `_save_activity`). -/
structure ActivityEntry where
  url : String
  first_seen : String
  keyword : String
  title : String
deriving DecidableEq, Repr

/-- One entry of `output/telegram_bot.json`: the activity fields plus the
`telegram_sent` flag. -/
structure BotEntry where
  url : String
  first_seen : String
  keyword : String
  title : String
  telegram_sent : Bool
deriving DecidableEq, Repr

/-- Result of `json.loads` on a stored document: either a parsed value or
an unparseable / wrongly-typed document. -/
inductive Parsed (α : Type) where
  | ok (val : α)
  | corrupt
deriving DecidableEq, Repr

/-- Error message of the `ValueError` raised by `search_google` when SerpAPI
is requested without a key (`google_search_tool.py` lines 150-153). -/
def serpKeyMissingMsg : String :=
  "SerpAPI requested but no key. Set SERPAPI_KEY in .env or pass serpapi_key=..."

/-- Error message of the `ValueError` raised by `search_google` when the
Google CSE credentials are missing (`google_search_tool.py` lines 156-160). -/
def cseCredsMissingMsg : String :=
  "Google Custom Search requested but credentials missing. Set GOOGLE_SEARCH_API_KEY and GOOGLE_SEARCH_ENGINE_ID, or use SerpAPI by setting SERPAPI_KEY."

/-- `search_google` from `google_search_tool.py`.  The two provider HTTP
clients `_search_serpapi` and `_search_google_cse` are external
collaborators, passed as oracles (`serpApi`, `cseApi`); their
`RuntimeError`s are `Except.error`.  Credential strings are the values
after the `arg or os.environ.get(...)` resolution, `""` meaning unset.
The second component of the result records whether a provider was
contacted at all. -/
def search_google (keyword : String) (num_results : Int)
    (serp_key google_key cx lang : String) (use_serpapi : Option Bool)
    (serpApi : String → Int → String → Except String (List SearchResult))
    (cseApi : String → Int → String → String → String → Except String (List SearchResult)) :
    Except String (List SearchResult) × Bool :=
  if num_results ≤ 0 then (Except.ok [], false)
  else
    let use_serp : Bool := use_serpapi.getD (serp_key != "")
    if use_serp = true then
      if serp_key = "" then (Except.error serpKeyMissingMsg, false)
      else (serpApi keyword num_results serp_key, true)
    else
      if google_key = "" ∨ cx = "" then (Except.error cseCredsMissingMsg, false)
      else (cseApi keyword num_results google_key cx lang, true)

/-- Inner loop of `_save_activity` for one keyword's result list
(`run_keywords.py` lines 185-198).  `ex` is the current `existing` list;
the Python `seen_urls` set always equals the set of urls of `existing`
(it is seeded from it and updated in lockstep), so membership is tested
directly on `ex`.  Returns the updated `existing` and the entries newly
appended for this keyword. -/
def addResults (run_at kw : String) (ex : List ActivityEntry) :
    List SearchResult → List ActivityEntry × List ActivityEntry
  | [] => (ex, [])
  | r :: rest =>
    if r.link = "" ∨ r.link ∈ ex.map (·.url) then addResults run_at kw ex rest
    else
      let entry : ActivityEntry := ⟨r.link, run_at, kw, r.title⟩
      let res := addResults run_at kw (ex ++ [entry]) rest
      (res.1, entry :: res.2)

/-- Core of `_save_activity` (`run_keywords.py` lines 183-198): iterate the
keyword→results mapping in insertion order, appending unseen urls.
Returns the updated store and the list of newly added entries. -/
def save_activity (run_at : String) :
    List (String × List SearchResult) → List ActivityEntry →
    List ActivityEntry × List ActivityEntry
  | [], ex => (ex, [])
  | (kw, rs) :: rest, ex =>
    let r1 := addResults run_at kw ex rs
    let r2 := save_activity run_at rest r1.1
    (r2.1, r1.2 ++ r2.2)

/-- `_save_activity` including its file load (`run_keywords.py` lines
179-182): if the activity file is absent the store starts empty; if the
file exists, `json.load` is called with no exception handling, so a
corrupt document raises `json.JSONDecodeError` and aborts. -/
def save_activity_run (run_at : String) (results : List (String × List SearchResult))
    (activityFile : Option (Parsed (List ActivityEntry))) :
    Except String (List ActivityEntry × List ActivityEntry) :=
  match activityFile with
  | none => Except.ok (save_activity run_at results [])
  | some (Parsed.ok existing) => Except.ok (save_activity run_at results existing)
  | some Parsed.corrupt => Except.error "JSONDecodeError"

/- ### Structural lemmas about the activity store -/

theorem addResults_fst (run_at kw : String) (rs : List SearchResult) :
    ∀ ex : List ActivityEntry,
      (addResults run_at kw ex rs).1 = ex ++ (addResults run_at kw ex rs).2 := by
  induction rs with
  | nil => intro ex; simp [addResults]
  | cons r rest ih =>
    intro ex
    by_cases h : r.link = "" ∨ r.link ∈ ex.map (·.url)
    · simp only [addResults, if_pos h]; exact ih ex
    · simp only [addResults, if_neg h]
      rw [ih]
      simp

theorem save_activity_fst (run_at : String) (rbk : List (String × List SearchResult)) :
    ∀ ex : List ActivityEntry,
      (save_activity run_at rbk ex).1 = ex ++ (save_activity run_at rbk ex).2 := by
  induction rbk with
  | nil => intro ex; simp [save_activity]
  | cons p rest ih =>
    intro ex
    obtain ⟨kw, rs⟩ := p
    simp only [save_activity]
    rw [ih ((addResults run_at kw ex rs).1), addResults_fst]
    simp

theorem addResults_urls_mono (run_at kw : String) (rs : List SearchResult)
    (ex : List ActivityEntry) (u : String) (h : u ∈ ex.map (·.url)) :
    u ∈ ((addResults run_at kw ex rs).1).map (·.url) := by
  rw [addResults_fst]
  simp only [List.map_append, List.mem_append]
  exact Or.inl h

theorem save_activity_urls_mono (run_at : String) (rbk : List (String × List SearchResult))
    (ex : List ActivityEntry) (u : String) (h : u ∈ ex.map (·.url)) :
    u ∈ ((save_activity run_at rbk ex).1).map (·.url) := by
  rw [save_activity_fst]
  simp only [List.map_append, List.mem_append]
  exact Or.inl h

theorem addResults_covers (run_at kw : String) (rs : List SearchResult) :
    ∀ ex : List ActivityEntry, ∀ r ∈ rs,
      r.link = "" ∨ r.link ∈ ((addResults run_at kw ex rs).1).map (·.url) := by
  induction rs with
  | nil => intro ex r hr; cases hr
  | cons r0 rest ih =>
    intro ex r hr
    simp only [List.mem_cons] at hr
    by_cases h : r0.link = "" ∨ r0.link ∈ ex.map (·.url)
    · simp only [addResults, if_pos h]
      rcases hr with rfl | hr
      · rcases h with h | h
        · exact Or.inl h
        · exact Or.inr (addResults_urls_mono run_at kw rest ex _ h)
      · exact ih ex r hr
    · simp only [addResults, if_neg h]
      rcases hr with rfl | hr
      · refine Or.inr ?_
        refine addResults_urls_mono run_at kw rest _ _ ?_
        simp
      · exact ih _ r hr

theorem addResults_noop (run_at kw : String) (rs : List SearchResult)
    (ex : List ActivityEntry)
    (h : ∀ r ∈ rs, r.link = "" ∨ r.link ∈ ex.map (·.url)) :
    addResults run_at kw ex rs = (ex, []) := by
  induction rs with
  | nil => rfl
  | cons r0 rest ih =>
    have h0 : r0.link = "" ∨ r0.link ∈ ex.map (·.url) := h r0 (List.mem_cons_self _ _)
    simp only [addResults, if_pos h0]
    exact ih (fun r hr => h r (List.mem_cons_of_mem _ hr))

theorem save_activity_covers (run_at : String) (rbk : List (String × List SearchResult)) :
    ∀ ex : List ActivityEntry, ∀ p ∈ rbk, ∀ r ∈ p.2,
      r.link = "" ∨ r.link ∈ ((save_activity run_at rbk ex).1).map (·.url) := by
  induction rbk with
  | nil => intro ex p hp; cases hp
  | cons q rest ih =>
    intro ex p hp r hr
    simp only [List.mem_cons] at hp
    obtain ⟨kw, rs⟩ := q
    simp only [save_activity]
    rcases hp with rfl | hp
    · rcases addResults_covers run_at kw rs ex r hr with h | h
      · exact Or.inl h
      · exact Or.inr (save_activity_urls_mono run_at rest _ r.link h)
    · exact ih _ p hp r hr

theorem save_activity_noop (run_at : String) (rbk : List (String × List SearchResult))
    (ex : List ActivityEntry)
    (h : ∀ p ∈ rbk, ∀ r ∈ p.2, r.link = "" ∨ r.link ∈ ex.map (·.url)) :
    save_activity run_at rbk ex = (ex, []) := by
  induction rbk generalizing ex with
  | nil => rfl
  | cons q rest ih =>
    obtain ⟨kw, rs⟩ := q
    simp only [save_activity]
    have h1 : addResults run_at kw ex rs = (ex, []) :=
      addResults_noop run_at kw rs ex (fun r hr => h (kw, rs) (List.mem_cons_self _ _) r hr)
    rw [h1]
    have h2 : save_activity run_at rest ex = (ex, []) :=
      ih ex (fun p hp r hr => h p (List.mem_cons_of_mem _ hp) r hr)
    simp [h2]

theorem addResults_new_truthy (run_at kw : String) (rs : List SearchResult) :
    ∀ ex : List ActivityEntry, ∀ e ∈ (addResults run_at kw ex rs).2, e.url ≠ "" := by
  induction rs with
  | nil => intro ex e he; cases he
  | cons r0 rest ih =>
    intro ex e he
    by_cases h : r0.link = "" ∨ r0.link ∈ ex.map (·.url)
    · simp only [addResults, if_pos h] at he
      exact ih ex e he
    · simp only [addResults, if_neg h, List.mem_cons] at he
      push_neg at h
      rcases he with rfl | he
      · exact h.1
      · exact ih _ e he

theorem save_activity_new_truthy (run_at : String) (rbk : List (String × List SearchResult)) :
    ∀ ex : List ActivityEntry, ∀ e ∈ (save_activity run_at rbk ex).2, e.url ≠ "" := by
  induction rbk with
  | nil => intro ex e he; cases he
  | cons q rest ih =>
    intro ex e he
    obtain ⟨kw, rs⟩ := q
    simp only [save_activity, List.mem_append] at he
    rcases he with he | he
    · exact addResults_new_truthy run_at kw rs ex e he
    · exact ih _ e he

/-- When every keyword's result list is empty, `_save_activity` leaves the
store unchanged and returns no new entries (`run_keywords.py` main loop
records `[]` for failed keywords). -/
theorem save_activity_all_empty (run_at : String) (keywords : List String)
    (ex : List ActivityEntry) :
    save_activity run_at (keywords.map (fun kw => (kw, []))) ex = (ex, []) := by
  apply save_activity_noop
  intro p hp r hr
  simp only [List.mem_map] at hp
  obtain ⟨kw, _, hkw⟩ := hp
  rw [← hkw] at hr
  cases hr

/- ### C6: idempotence of the activity dedup -/

/-- C6 (confirmed).  Calling `_save_activity` a second time with the
identical `results_by_keyword` mapping returns an empty list of new
entries and leaves the stored activity list (hence its url set)
completely unchanged, for any initial store and any pair of run
timestamps. -/
theorem recordNew_idempotent (run_at run_at' : String)
    (rbk : List (String × List SearchResult)) (ex : List ActivityEntry) :
    save_activity run_at' rbk ((save_activity run_at rbk ex).1) =
      (((save_activity run_at rbk ex).1), []) := by
  apply save_activity_noop
  intro p hp r hr
  exact save_activity_covers run_at rbk ex p hp r hr

/- ### C10: non-positive result count -/

/-- C10 (confirmed).  For every keyword and every `num_results ≤ 0`,
`search_google` returns the empty list immediately: no provider oracle is
contacted (second component `false`) and no error is raised, regardless
of which credentials are configured. -/
theorem search_google_nonpositive_count (keyword : String) (num_results : Int)
    (serp_key google_key cx lang : String) (use_serpapi : Option Bool)
    (serpApi : String → Int → String → Except String (List SearchResult))
    (cseApi : String → Int → String → String → String → Except String (List SearchResult))
    (h : num_results ≤ 0) :
    search_google keyword num_results serp_key google_key cx lang use_serpapi serpApi cseApi
      = (Except.ok [], false) := by
  unfold search_google
  rw [if_pos h]

/-- Witness for C10 at `num_results = 0` with no credentials configured. -/
theorem search_google_nonpositive_count_witness :
    (0 : Int) ≤ 0 ∧
      search_google "kw" 0 "" "" "" "lang_en" none
        (fun _ _ _ => Except.ok []) (fun _ _ _ _ _ => Except.ok [])
        = (Except.ok [], false) :=
  ⟨by decide,
    search_google_nonpositive_count "kw" 0 "" "" "" "lang_en" none
      (fun _ _ _ => Except.ok []) (fun _ _ _ _ _ => Except.ok []) (by decide)⟩

/- ### Notification queue: telegram_bot.json sync and delivery -/

/-- Backfill loop of `_sync_telegram_bot_and_send` (`run_keywords.py` lines
85-99): copy every activity entry whose url is truthy and unseen into the
bot list with `telegram_sent = True`.  As in `addResults`, the Python
`seen_urls` set always equals the url set of the current `bot_list`
(here the loop only runs when the loaded list is empty), so membership is
tested on the list being built. -/
def backfillLoop (activity : List ActivityEntry) (bot : List BotEntry) : List BotEntry :=
  match activity with
  | [] => bot
  | a :: rest =>
    if a.url ≠ "" ∧ a.url ∉ bot.map (·.url) then
      backfillLoop rest (bot ++ [⟨a.url, a.first_seen, a.keyword, a.title, true⟩])
    else backfillLoop rest bot

/-- New-entry loop of `_sync_telegram_bot_and_send` (`run_keywords.py` lines
101-111): append each new activity entry with a truthy, unseen url with
`telegram_sent = False`. -/
def appendNewLoop (newEntries : List ActivityEntry) (bot : List BotEntry) : List BotEntry :=
  match newEntries with
  | [] => bot
  | a :: rest =>
    if a.url ≠ "" ∧ a.url ∉ bot.map (·.url) then
      appendNewLoop rest (bot ++ [⟨a.url, a.first_seen, a.keyword, a.title, false⟩])
    else appendNewLoop rest bot

/-- The reconciled bot list before delivery: backfill (only when the loaded
list is empty and the activity file exists, lines 86-99) followed by the
new-entry append (lines 101-111). -/
def syncBotList (activityExists : Bool) (activity : List ActivityEntry)
    (botLoad : List BotEntry) (newEntries : List ActivityEntry) : List BotEntry :=
  appendNewLoop newEntries
    (if botLoad = [] ∧ activityExists = true then backfillLoop activity botLoad else botLoad)

/-- Message text built for one entry (`run_keywords.py` line 136,
`send_telegram_pending.py` line 85). -/
def msgOf (e : BotEntry) : String := "Keyword: " ++ e.keyword ++ "\n" ++ e.url

/-- Mutable state of the delivery loop: the 1-based `enumerate` counter over
pending entries, `sent_count`, `first_error`, and the list of
`(pending index, message text)` pairs for which the send primitive was
actually invoked. -/
structure LoopState where
  i : Nat
  sentCount : Nat
  firstError : String
  attempts : List (Nat × String)
deriving DecidableEq, Repr

/-- One iteration of the shared delivery loop (`run_keywords.py` lines
131-145, `send_telegram_pending.py` lines 80-94), acting on one entry of
the full bot list: entries with `telegram_sent = True` are not in
`pending` and pass through; a pending entry with an empty url is skipped
by `continue` (the enumerate counter still advanced for it); otherwise
the send oracle is consulted, on success the flag is set in memory, on
failure the first error message is retained. -/
def stepEntry (oracle : Nat → String → Bool × String) (s : LoopState) (e : BotEntry) :
    LoopState × BotEntry :=
  if e.telegram_sent = true then (s, e)
  else if e.url = "" then ({ s with i := s.i + 1 }, e)
  else
    let i := s.i + 1
    let text := msgOf e
    let res := oracle i text
    if res.1 = true then
      ({ i := i, sentCount := s.sentCount + 1, firstError := s.firstError,
         attempts := s.attempts ++ [(i, text)] },
       { e with telegram_sent := true })
    else
      ({ i := i, sentCount := s.sentCount,
         firstError := if s.firstError = "" then res.2 else s.firstError,
         attempts := s.attempts ++ [(i, text)] },
       e)

/-- The whole delivery pass over the bot list.  The Python code iterates the
`pending` sublist whose dict objects alias those of `bot_list`; walking
the full list and passing entries with `telegram_sent = True` through
unchanged is the same mutation expressed functionally. -/
def runLoop (oracle : Nat → String → Bool × String) :
    LoopState → List BotEntry → LoopState × List BotEntry
  | s, [] => (s, [])
  | s, e :: rest =>
    let se := stepEntry oracle s e
    let rr := runLoop oracle se.1 rest
    (rr.1, se.2 :: rr.2)

/-- Final console report of `_sync_telegram_bot_and_send`
(lines 117, 123, 148-151). -/
inductive SyncReport where
  | nothingToSend
  | noCredentials
  | sentOk (n : Nat)
  | sendFailed (err : String)
deriving DecidableEq, Repr

/-- Outcome of `_sync_telegram_bot_and_send`: the bot list as persisted at
the end, the report printed, the sends actually attempted, and the
loop's counters.  `totalPending` is `len(pending)` as announced before
the delivery loop (line 127-128). -/
structure SyncResult where
  bot : List BotEntry
  report : SyncReport
  attempts : List (Nat × String)
  sentCount : Nat
  firstError : String
  totalPending : Nat
deriving Repr

/-- Load of `telegram_bot.json` in `run_keywords.py` (lines 73-82): absent
file or corrupt/non-list document yields the empty list. -/
def loadBotFile (fileExists : Bool) (stored : Parsed (List BotEntry)) : List BotEntry :=
  if fileExists = true then
    match stored with
    | Parsed.ok l => l
    | Parsed.corrupt => []
  else []

/-- `_sync_telegram_bot_and_send` (`run_keywords.py` lines 63-151) given the
already-loaded bot list (see `loadBotFile`), the current contents of
`activity.json` and this run's new activity entries.  In every branch the
resulting `bot` field is also the list written back to the file. -/
def sync_telegram_bot_and_send (token chatId : String) (activityExists : Bool)
    (activity : List ActivityEntry) (botLoad : List BotEntry)
    (newEntries : List ActivityEntry) (oracle : Nat → String → Bool × String) :
    SyncResult :=
  let botList := syncBotList activityExists activity botLoad newEntries
  let pending := botList.filter (fun e => !e.telegram_sent)
  if pending = [] then
    ⟨botList, SyncReport.nothingToSend, [], 0, "", pending.length⟩
  else if token = "" ∨ chatId = "" then
    ⟨botList, SyncReport.noCredentials, [], 0, "", pending.length⟩
  else
    let r := runLoop oracle ⟨0, 0, "", []⟩ botList
    ⟨r.2,
     if r.1.sentCount ≠ 0 then SyncReport.sentOk r.1.sentCount
     else SyncReport.sendFailed r.1.firstError,
     r.1.attempts, r.1.sentCount, r.1.firstError, pending.length⟩

/-- Final console report of `send_telegram_pending.py`'s `main`. -/
inductive PendReport where
  | noCredentials
  | noFile
  | nothingToSend
  | doneSent (sent total : Nat)
  | failed (err : String)
deriving DecidableEq, Repr

/-- Outcome of `send_telegram_pending.py`'s `main`: the snapshots written to
the file (in order), the in-memory list at exit (equal to the file
content whenever a write happened, and to the parsed prior content
otherwise), report, attempts and counters. -/
structure PendResult where
  writes : List (List BotEntry)
  final : List BotEntry
  report : PendReport
  attempts : List (Nat × String)
  sentCount : Nat
  firstError : String
  totalPending : Nat
deriving Repr

/-- Load of `telegram_bot.json` in `send_telegram_pending.py` (lines 54-61):
corrupt/non-list documents are treated as the empty list. -/
def parseList (stored : Parsed (List BotEntry)) : List BotEntry :=
  match stored with
  | Parsed.ok l => l
  | Parsed.corrupt => []

/-- `main` of `send_telegram_pending.py` (lines 39-102).  Note the order of
the guards: missing credentials (lines 44-48) and a missing file (lines
50-52) cause an early return before the file is read or the
`--resend-all` reset is applied; the reset (lines 63-66) happens only in
memory, and the file is written exactly once, after the delivery loop
(lines 95-96), or — when there is nothing to send — only under
`--resend-all` (lines 71-73). -/
def send_telegram_pending_main (token chatId : String) (fileExists : Bool)
    (stored : Parsed (List BotEntry)) (resendAll : Bool)
    (oracle : Nat → String → Bool × String) : PendResult :=
  if token = "" ∨ chatId = "" then
    ⟨[], parseList stored, PendReport.noCredentials, [], 0, "", 0⟩
  else if fileExists = false then
    ⟨[], parseList stored, PendReport.noFile, [], 0, "", 0⟩
  else
    let botList0 := parseList stored
    let botList := if resendAll = true then
        botList0.map (fun e => { e with telegram_sent := false })
      else botList0
    let pending := botList.filter (fun e => !e.telegram_sent)
    if pending = [] then
      ⟨if resendAll = true then [botList] else [], botList,
       PendReport.nothingToSend, [], 0, "", 0⟩
    else
      let r := runLoop oracle ⟨0, 0, "", []⟩ botList
      ⟨[r.2], r.2,
       if r.1.sentCount ≠ 0 then PendReport.doneSent r.1.sentCount pending.length
       else PendReport.failed r.1.firstError,
       r.1.attempts, r.1.sentCount, r.1.firstError, pending.length⟩

/- ### Whole-run pipeline (`run_keywords.py` `main`) -/

/-- Persisted state of the pipeline between runs.  The history day-files are
collapsed into one append-only list of `(run_at, results)` records: the
grouping by calendar day does not affect any property proved here. -/
structure RunState where
  historyExists : Bool
  history : List (String × List (String × List SearchResult))
  activityExists : Bool
  activity : List ActivityEntry
  botExists : Bool
  bot : List BotEntry
deriving Repr

/-- The state before any run: no output files exist. -/
def emptyRunState : RunState := ⟨false, [], false, [], false, []⟩

/-- One complete run after the search loop: `_save_history`, then
`_save_activity`, then `_sync_telegram_bot_and_send`
(`run_keywords.py` lines 226-230).  All three files exist afterwards;
the sync reads the activity file just written, so it always exists at
that point. -/
def full_run (run_at : String) (results : List (String × List SearchResult))
    (token chatId : String) (st : RunState)
    (oracle : Nat → String → Bool × String) : RunState × SyncResult :=
  let activityLoad := if st.activityExists = true then st.activity else []
  let sa := save_activity run_at results activityLoad
  let botLoad := if st.botExists = true then st.bot else []
  let res := sync_telegram_bot_and_send token chatId true sa.1 botLoad sa.2 oracle
  (⟨true, st.history ++ [(run_at, results)], true, sa.1, true, res.bot⟩, res)

/-- Result of `main` in `run_keywords.py`: the final persisted state, the
telegram sync outcome, and the per-keyword errors printed by the
`except (ValueError, RuntimeError)` handler (lines 222-224). -/
structure MainResult where
  state : RunState
  sync : SyncResult
  keywordErrors : List (String × String)
deriving Repr

/-- `main` of `run_keywords.py` (lines 204-231): run the search per keyword,
catching `ValueError`/`RuntimeError` and recording an empty result list
for the failing keyword, then persist history, activity and the telegram
queue.  (Keywords are assumed distinct, as the Python dict keyed by
keyword would otherwise collapse duplicates; no claim involves duplicate
keywords.) -/
def run_main (keywords : List String) (run_at : String)
    (searchFn : String → Except String (List SearchResult))
    (token chatId : String) (st : RunState)
    (oracle : Nat → String → Bool × String) : MainResult :=
  let results := keywords.map (fun kw =>
    (kw, match searchFn kw with
         | Except.ok rs => rs
         | Except.error _ => []))
  let errs := keywords.filterMap (fun kw =>
    match searchFn kw with
    | Except.ok _ => none
    | Except.error e => some (kw, e))
  let fr := full_run run_at results token chatId st oracle
  ⟨fr.1, fr.2, errs⟩

/-- Input of one run in a sequence: its timestamp, the provider results for
each keyword, the Telegram credentials in force, and the send oracle. -/
structure RunInput where
  run_at : String
  results : List (String × List SearchResult)
  token : String
  chatId : String
  oracle : Nat → String → Bool × String

/-- Fold a sequence of complete runs starting from empty stores. -/
def runSequence (inputs : List RunInput) : RunState :=
  inputs.foldl
    (fun st inp => (full_run inp.run_at inp.results inp.token inp.chatId st inp.oracle).1)
    emptyRunState

/- ### List access helpers -/

theorem getElem?_append_l {α : Type} (l1 l2 : List α) :
    ∀ (i : Nat) (x : α), l1[i]? = some x → (l1 ++ l2)[i]? = some x := by
  induction l1 with
  | nil => intro i x h; simp at h
  | cons a rest ih =>
    intro i x h
    cases i with
    | zero => simpa using h
    | succ n =>
      simp only [List.getElem?_cons_succ] at h
      simp only [List.cons_append, List.getElem?_cons_succ]
      exact ih n x h

theorem getElem?_append_exact {α : Type} (l2 : List α) (x : α) :
    ∀ l1 : List α, (l1 ++ x :: l2)[l1.length]? = some x := by
  intro l1
  induction l1 with
  | nil => simp
  | cons a rest ih => simpa using ih

theorem getElem?_map_some {α β : Type} (f : α → β) (l : List α) :
    ∀ (i : Nat) (x : α), l[i]? = some x → (l.map f)[i]? = some (f x) := by
  induction l with
  | nil => intro i x h; simp at h
  | cons a rest ih =>
    intro i x h
    cases i with
    | zero => simp only [List.getElem?_cons_zero, Option.some.injEq] at h; subst h; simp
    | succ n =>
      simp only [List.getElem?_cons_succ] at h
      simpa using ih n x h

/- ### Structural lemmas: backfill and append loops -/

theorem backfillLoop_eq_append (activity : List ActivityEntry) :
    ∀ bot : List BotEntry, ∃ zs, backfillLoop activity bot = bot ++ zs := by
  induction activity with
  | nil => intro bot; exact ⟨[], by simp [backfillLoop]⟩
  | cons a rest ih =>
    intro bot
    by_cases h : a.url ≠ "" ∧ a.url ∉ bot.map (·.url)
    · obtain ⟨zs, hzs⟩ := ih (bot ++ [⟨a.url, a.first_seen, a.keyword, a.title, true⟩])
      refine ⟨⟨a.url, a.first_seen, a.keyword, a.title, true⟩ :: zs, ?_⟩
      simp only [backfillLoop, if_pos h, hzs]
      simp
    · obtain ⟨zs, hzs⟩ := ih bot
      exact ⟨zs, by simp only [backfillLoop, if_neg h, hzs]⟩

theorem appendNewLoop_eq_append (newEntries : List ActivityEntry) :
    ∀ bot : List BotEntry, ∃ zs, appendNewLoop newEntries bot = bot ++ zs := by
  induction newEntries with
  | nil => intro bot; exact ⟨[], by simp [appendNewLoop]⟩
  | cons a rest ih =>
    intro bot
    by_cases h : a.url ≠ "" ∧ a.url ∉ bot.map (·.url)
    · obtain ⟨zs, hzs⟩ := ih (bot ++ [⟨a.url, a.first_seen, a.keyword, a.title, false⟩])
      refine ⟨⟨a.url, a.first_seen, a.keyword, a.title, false⟩ :: zs, ?_⟩
      simp only [appendNewLoop, if_pos h, hzs]
      simp
    · obtain ⟨zs, hzs⟩ := ih bot
      exact ⟨zs, by simp only [appendNewLoop, if_neg h, hzs]⟩

theorem backfillLoop_urls_mono (activity : List ActivityEntry) (bot : List BotEntry)
    (u : String) (h : u ∈ bot.map (·.url)) :
    u ∈ (backfillLoop activity bot).map (·.url) := by
  obtain ⟨zs, hzs⟩ := backfillLoop_eq_append activity bot
  rw [hzs, List.map_append, List.mem_append]
  exact Or.inl h

theorem appendNewLoop_urls_mono (newEntries : List ActivityEntry) (bot : List BotEntry)
    (u : String) (h : u ∈ bot.map (·.url)) :
    u ∈ (appendNewLoop newEntries bot).map (·.url) := by
  obtain ⟨zs, hzs⟩ := appendNewLoop_eq_append newEntries bot
  rw [hzs, List.map_append, List.mem_append]
  exact Or.inl h

theorem backfillLoop_superset (activity : List ActivityEntry) :
    ∀ bot, ∀ a ∈ activity, a.url ≠ "" → a.url ∈ (backfillLoop activity bot).map (·.url) := by
  induction activity with
  | nil => intro bot a ha; cases ha
  | cons a0 rest ih =>
    intro bot a ha hne
    simp only [List.mem_cons] at ha
    by_cases h : a0.url ≠ "" ∧ a0.url ∉ bot.map (·.url)
    · simp only [backfillLoop, if_pos h]
      rcases ha with rfl | ha
      · apply backfillLoop_urls_mono
        simp
      · exact ih _ a ha hne
    · simp only [backfillLoop, if_neg h]
      rcases ha with rfl | ha
      · apply backfillLoop_urls_mono
        push_neg at h
        exact h hne
      · exact ih _ a ha hne

theorem appendNewLoop_superset (newEntries : List ActivityEntry) :
    ∀ bot, ∀ a ∈ newEntries, a.url ≠ "" →
      a.url ∈ (appendNewLoop newEntries bot).map (·.url) := by
  induction newEntries with
  | nil => intro bot a ha; cases ha
  | cons a0 rest ih =>
    intro bot a ha hne
    simp only [List.mem_cons] at ha
    by_cases h : a0.url ≠ "" ∧ a0.url ∉ bot.map (·.url)
    · simp only [appendNewLoop, if_pos h]
      rcases ha with rfl | ha
      · apply appendNewLoop_urls_mono
        simp
      · exact ih _ a ha hne
    · simp only [appendNewLoop, if_neg h]
      rcases ha with rfl | ha
      · apply appendNewLoop_urls_mono
        push_neg at h
        exact h hne
      · exact ih _ a ha hne

/-- With pairwise distinct truthy urls disjoint from the current list, the
backfill copies the whole activity store verbatim with `sent = true`. -/
theorem backfillLoop_clean (activity : List ActivityEntry) :
    ∀ bot, (∀ a ∈ activity, a.url ≠ "") → ((activity.map (·.url)).Nodup) →
      (∀ a ∈ activity, a.url ∉ bot.map (·.url)) →
      backfillLoop activity bot =
        bot ++ activity.map (fun a => ⟨a.url, a.first_seen, a.keyword, a.title, true⟩) := by
  induction activity with
  | nil => intro bot _ _ _; simp [backfillLoop]
  | cons a0 rest ih =>
    intro bot ht hnd hdisj
    rw [List.map_cons] at hnd
    have hnd' := List.nodup_cons.mp hnd
    have h0 : a0.url ≠ "" ∧ a0.url ∉ bot.map (·.url) :=
      ⟨ht a0 (List.mem_cons_self _ _), hdisj a0 (List.mem_cons_self _ _)⟩
    simp only [backfillLoop, if_pos h0]
    rw [ih]
    · simp
    · intro a ha; exact ht a (List.mem_cons_of_mem _ ha)
    · exact hnd'.2
    · intro a ha hmem
      rw [List.map_append, List.mem_append] at hmem
      rcases hmem with hmem | hmem
      · exact hdisj a (List.mem_cons_of_mem _ ha) hmem
      · simp only [List.map_cons, List.map_nil, List.mem_singleton] at hmem
        exact hnd'.1 (hmem ▸ List.mem_map.mpr ⟨a, ha, rfl⟩)

/- ### Structural lemmas: the delivery loop -/

theorem stepEntry_url (oracle : Nat → String → Bool × String) (s : LoopState) (e : BotEntry) :
    ((stepEntry oracle s e).2).url = e.url := by
  simp only [stepEntry]
  split_ifs <;> rfl

theorem runLoop_length (oracle : Nat → String → Bool × String) :
    ∀ (l : List BotEntry) (s : LoopState), ((runLoop oracle s l).2).length = l.length := by
  intro l
  induction l with
  | nil => intro s; rfl
  | cons e rest ih =>
    intro s
    simp only [runLoop, List.length_cons]
    rw [ih]

theorem runLoop_urls (oracle : Nat → String → Bool × String) :
    ∀ (l : List BotEntry) (s : LoopState),
      ((runLoop oracle s l).2).map (·.url) = l.map (·.url) := by
  intro l
  induction l with
  | nil => intro s; rfl
  | cons e rest ih =>
    intro s
    simp only [runLoop, List.map_cons]
    rw [stepEntry_url, ih]

theorem runLoop_append (oracle : Nat → String → Bool × String) :
    ∀ (l1 l2 : List BotEntry) (s : LoopState),
      runLoop oracle s (l1 ++ l2) =
        ((runLoop oracle (runLoop oracle s l1).1 l2).1,
         (runLoop oracle s l1).2 ++ (runLoop oracle (runLoop oracle s l1).1 l2).2) := by
  intro l1
  induction l1 with
  | nil => intro l2 s; simp [runLoop]
  | cons e rest ih =>
    intro l2 s
    have h1 : (e :: rest) ++ l2 = e :: (rest ++ l2) := rfl
    rw [h1]
    simp only [runLoop]
    rw [ih]
    simp

theorem runLoop_getElem? (oracle : Nat → String → Bool × String) :
    ∀ (l : List BotEntry) (s : LoopState) (i : Nat) (b : BotEntry),
      l[i]? = some b →
      ∃ a, ((runLoop oracle s l).2)[i]? = some a ∧
        (a = b ∨ (b.telegram_sent = false ∧ b.url ≠ "" ∧
          a = { b with telegram_sent := true } ∧
          ∃ j, (oracle j (msgOf b)).1 = true)) := by
  intro l
  induction l with
  | nil => intro s i b hb; simp at hb
  | cons e rest ih =>
    intro s i b hb
    cases i with
    | zero =>
      simp only [List.getElem?_cons_zero, Option.some.injEq] at hb
      subst hb
      refine ⟨(stepEntry oracle s e).2, by simp [runLoop], ?_⟩
      by_cases h1 : e.telegram_sent = true
      · left; simp [stepEntry, h1]
      · simp only [Bool.not_eq_true] at h1
        by_cases h2 : e.url = ""
        · left; simp [stepEntry, h1, h2]
        · by_cases h3 : (oracle (s.i + 1) (msgOf e)).1 = true
          · right
            exact ⟨h1, h2, by simp [stepEntry, h1, h2, h3], ⟨s.i + 1, h3⟩⟩
          · left; simp [stepEntry, h1, h2, h3]
    | succ n =>
      simp only [List.getElem?_cons_succ] at hb
      obtain ⟨a, ha, hp⟩ := ih (stepEntry oracle s e).1 n b hb
      exact ⟨a, by simp only [runLoop]; simpa using ha, hp⟩

/-- The enumerate counter after the loop: the initial counter plus the
number of pending (unsent) entries of the list. -/
theorem runLoop_i (oracle : Nat → String → Bool × String) :
    ∀ (l : List BotEntry) (s : LoopState),
      (runLoop oracle s l).1.i = s.i + (l.filter (fun e => !e.telegram_sent)).length := by
  intro l
  induction l with
  | nil => intro s; simp [runLoop]
  | cons e rest ih =>
    intro s
    simp only [runLoop]
    rw [ih]
    by_cases h1 : e.telegram_sent = true
    · simp [stepEntry, h1, List.filter_cons]
    · simp only [Bool.not_eq_true] at h1
      by_cases h2 : e.url = ""
      · simp only [stepEntry, h1, h2, List.filter_cons]
        simp [h1]
        omega
      · by_cases h3 : (oracle (s.i + 1) (msgOf e)).1 = true
        · simp only [stepEntry, h1, h2, h3, List.filter_cons]
          simp [h1, h2, h3]
          omega
        · simp only [stepEntry, h1, h2, h3, List.filter_cons]
          simp [h1, h2, h3]
          omega

/-- Case analysis of `stepEntry`'s effect on the loop state: either no send
was attempted (attempts unchanged, counter advanced by 0 or 1) or a send
was attempted at index `s.i + 1`. -/
theorem stepEntry_state (oracle : Nat → String → Bool × String) (s : LoopState) (e : BotEntry) :
    ((stepEntry oracle s e).1.attempts = s.attempts ∧
      ((stepEntry oracle s e).1.i = s.i ∨ (stepEntry oracle s e).1.i = s.i + 1)) ∨
    ((stepEntry oracle s e).1.attempts = s.attempts ++ [(s.i + 1, msgOf e)] ∧
      (stepEntry oracle s e).1.i = s.i + 1) := by
  by_cases h1 : e.telegram_sent = true
  · left; simp [stepEntry, h1]
  · simp only [Bool.not_eq_true] at h1
    by_cases h2 : e.url = ""
    · left; simp [stepEntry, h1, h2]
    · by_cases h3 : (oracle (s.i + 1) (msgOf e)).1 = true
      · right; simp [stepEntry, h1, h2, h3]
      · right; simp [stepEntry, h1, h2, h3]

/-- Every attempt recorded by the loop was either already recorded or has an
index in the interval left-open at the initial counter and bounded by the
final counter. -/
theorem runLoop_attempts (oracle : Nat → String → Bool × String) :
    ∀ (l : List BotEntry) (s : LoopState) (p : Nat × String),
      p ∈ (runLoop oracle s l).1.attempts →
      p ∈ s.attempts ∨ (s.i < p.1 ∧ p.1 ≤ (runLoop oracle s l).1.i) := by
  intro l
  induction l with
  | nil =>
    intro s p hp
    simp only [runLoop] at hp
    exact Or.inl hp
  | cons e rest ih =>
    intro s p hp
    simp only [runLoop] at hp ⊢
    rcases ih (stepEntry oracle s e).1 p hp with h | h
    · rcases stepEntry_state oracle s e with ⟨hatt, hi⟩ | ⟨hatt, hi⟩
      · rw [hatt] at h
        exact Or.inl h
      · rw [hatt, List.mem_append, List.mem_singleton] at h
        rcases h with h | h
        · exact Or.inl h
        · right
          subst h
          refine ⟨Nat.lt_succ_self _, ?_⟩
          rw [runLoop_i, hi]
          omega
    · right
      rcases stepEntry_state oracle s e with ⟨_, hi⟩ | ⟨_, hi⟩
      · rcases hi with hi | hi <;> omega
      · omega

/-- A pending entry with an empty url is passed through unchanged by the
delivery pass and its enumerate index is never the index of an attempted
send (starting from the initial loop state). -/
theorem runLoop_skip (oracle : Nat → String → Bool × String)
    (pre suf : List BotEntry) (e : BotEntry)
    (hurl : e.url = "") (hsent : e.telegram_sent = false) :
    ((runLoop oracle ⟨0, 0, "", []⟩ (pre ++ e :: suf)).2)[pre.length]? = some e ∧
    ∀ t, ((pre.filter (fun x => !x.telegram_sent)).length + 1, t)
        ∉ (runLoop oracle ⟨0, 0, "", []⟩ (pre ++ e :: suf)).1.attempts := by
  rw [runLoop_append]
  have hstep : stepEntry oracle (runLoop oracle ⟨0, 0, "", []⟩ pre).1 e =
      ({ (runLoop oracle ⟨0, 0, "", []⟩ pre).1 with
          i := (runLoop oracle ⟨0, 0, "", []⟩ pre).1.i + 1 }, e) := by
    simp [stepEntry, hsent, hurl]
  have hi : (runLoop oracle ⟨0, 0, "", []⟩ pre).1.i =
      (pre.filter (fun x => !x.telegram_sent)).length := by
    simp [runLoop_i]
  constructor
  · have hlen : (runLoop oracle ⟨0, 0, "", []⟩ pre).2.length = pre.length :=
      runLoop_length oracle pre _
    rw [← hlen]
    have : (runLoop oracle (runLoop oracle ⟨0, 0, "", []⟩ pre).1 (e :: suf)).2 =
        e :: (runLoop oracle
          ({ (runLoop oracle ⟨0, 0, "", []⟩ pre).1 with
              i := (runLoop oracle ⟨0, 0, "", []⟩ pre).1.i + 1 }) suf).2 := by
      simp only [runLoop, hstep]
    rw [this]
    exact getElem?_append_exact _ e _
  · intro t hmem
    simp only [runLoop, hstep] at hmem
    rcases runLoop_attempts oracle suf _ _ hmem with h | h
    · rcases runLoop_attempts oracle pre _ _ h with h' | h'
      · simp at h'
      · simp only [hi] at h'
        omega
    · simp only [hi] at h
      omega

/- ### Branch-level lemmas about the sync operation -/

/-- In every branch of `_sync_telegram_bot_and_send` the persisted list has
exactly the urls of the reconciled list (delivery only flips flags). -/
theorem sync_bot_urls (token chatId : String) (activityExists : Bool)
    (activity : List ActivityEntry) (botLoad : List BotEntry)
    (newEntries : List ActivityEntry) (oracle : Nat → String → Bool × String) :
    ((sync_telegram_bot_and_send token chatId activityExists activity botLoad
        newEntries oracle).bot).map (·.url)
      = (syncBotList activityExists activity botLoad newEntries).map (·.url) := by
  simp only [sync_telegram_bot_and_send]
  split_ifs <;> simp [runLoop_urls]

theorem filter_unsent_backfilled (activity : List ActivityEntry) :
    ((activity.map (fun a => (⟨a.url, a.first_seen, a.keyword, a.title, true⟩ : BotEntry))).filter
        (fun e => !e.telegram_sent)) = [] := by
  induction activity with
  | nil => rfl
  | cons a rest ih => simp [List.filter_cons, ih]

theorem filter_unsent_reset (l : List BotEntry) :
    ((l.map (fun e => { e with telegram_sent := false })).filter (fun e => !e.telegram_sent))
      = l.map (fun e => { e with telegram_sent := false }) := by
  induction l with
  | nil => rfl
  | cons e rest ih => simp [List.filter_cons, ih]

/- ### C5: backfill does not re-notify -/

/-- C5 (confirmed).  With an empty loaded notification queue and an activity
store of well-formed entries (non-empty, pairwise distinct urls — which
is what `_save_activity` always produces), one sync pass with no new
entries copies every activity entry into the queue with
`telegram_sent = true`, attempts no delivery, and reports nothing to
send. -/
theorem backfill_not_renotify (token chatId : String) (activity : List ActivityEntry)
    (oracle : Nat → String → Bool × String)
    (ht : ∀ a ∈ activity, a.url ≠ "") (hnd : (activity.map (·.url)).Nodup) :
    (sync_telegram_bot_and_send token chatId true activity [] [] oracle).bot
        = activity.map (fun a => ⟨a.url, a.first_seen, a.keyword, a.title, true⟩) ∧
    (sync_telegram_bot_and_send token chatId true activity [] [] oracle).attempts = [] ∧
    (sync_telegram_bot_and_send token chatId true activity [] [] oracle).sentCount = 0 ∧
    (sync_telegram_bot_and_send token chatId true activity [] [] oracle).report
        = SyncReport.nothingToSend := by
  have hbl : syncBotList true activity [] [] =
      activity.map (fun a => ⟨a.url, a.first_seen, a.keyword, a.title, true⟩) := by
    unfold syncBotList
    rw [if_pos ⟨rfl, rfl⟩,
      backfillLoop_clean activity [] ht hnd (by intro a _ h; simp at h)]
    simp [appendNewLoop]
  simp only [sync_telegram_bot_and_send, hbl, filter_unsent_backfilled]
  simp

/-- Witness for C5 on a two-entry activity store. -/
theorem backfill_not_renotify_witness :
    (∀ a ∈ ([⟨"a", "f1", "k1", "t1"⟩, ⟨"b", "f2", "k2", "t2"⟩] : List ActivityEntry),
        a.url ≠ "") ∧
    ((([⟨"a", "f1", "k1", "t1"⟩, ⟨"b", "f2", "k2", "t2"⟩] : List ActivityEntry).map
        (·.url)).Nodup) ∧
    ((sync_telegram_bot_and_send "T" "C" true
        [⟨"a", "f1", "k1", "t1"⟩, ⟨"b", "f2", "k2", "t2"⟩] [] []
        (fun _ _ => (true, ""))).bot
      = [⟨"a", "f1", "k1", "t1", true⟩, ⟨"b", "f2", "k2", "t2", true⟩] ∧
     (sync_telegram_bot_and_send "T" "C" true
        [⟨"a", "f1", "k1", "t1"⟩, ⟨"b", "f2", "k2", "t2"⟩] [] []
        (fun _ _ => (true, ""))).attempts = [] ∧
     (sync_telegram_bot_and_send "T" "C" true
        [⟨"a", "f1", "k1", "t1"⟩, ⟨"b", "f2", "k2", "t2"⟩] [] []
        (fun _ _ => (true, ""))).sentCount = 0 ∧
     (sync_telegram_bot_and_send "T" "C" true
        [⟨"a", "f1", "k1", "t1"⟩, ⟨"b", "f2", "k2", "t2"⟩] [] []
        (fun _ _ => (true, ""))).report = SyncReport.nothingToSend) :=
  ⟨by decide, by decide,
   backfill_not_renotify "T" "C" [⟨"a", "f1", "k1", "t1"⟩, ⟨"b", "f2", "k2", "t2"⟩]
     (fun _ _ => (true, "")) (by decide) (by decide)⟩

/- ### C3: partial-failure containment -/

/-- C3 counterexample.  In the 5-pending-entry scenario where entry 3's send
fails with error `E3` and the others succeed, the first error is held in
the in-memory `first_error` variable, but the operation's final report is
the sent-count report `sentOk 4`, not the report carrying the error
(which is printed only when `sent_count` is zero), and the persisted
entries carry no error field at all — so the claim that the first error
is "reported/persisted with the outcome" fails at this input. -/
theorem partial_failure_error_not_reported :
    (sync_telegram_bot_and_send "T" "C" false []
        [⟨"u1", "f", "k1", "t", false⟩, ⟨"u2", "f", "k2", "t", false⟩,
         ⟨"u3", "f", "k3", "t", false⟩, ⟨"u4", "f", "k4", "t", false⟩,
         ⟨"u5", "f", "k5", "t", false⟩] []
        (fun i _ => if i = 3 then (false, "E3") else (true, ""))).report
      = SyncReport.sentOk 4 ∧
    (sync_telegram_bot_and_send "T" "C" false []
        [⟨"u1", "f", "k1", "t", false⟩, ⟨"u2", "f", "k2", "t", false⟩,
         ⟨"u3", "f", "k3", "t", false⟩, ⟨"u4", "f", "k4", "t", false⟩,
         ⟨"u5", "f", "k5", "t", false⟩] []
        (fun i _ => if i = 3 then (false, "E3") else (true, ""))).firstError = "E3" ∧
    (sync_telegram_bot_and_send "T" "C" false []
        [⟨"u1", "f", "k1", "t", false⟩, ⟨"u2", "f", "k2", "t", false⟩,
         ⟨"u3", "f", "k3", "t", false⟩, ⟨"u4", "f", "k4", "t", false⟩,
         ⟨"u5", "f", "k5", "t", false⟩] []
        (fun i _ => if i = 3 then (false, "E3") else (true, ""))).report
      ≠ SyncReport.sendFailed "E3" := by
  refine ⟨rfl, rfl, ?_⟩
  decide

/-- C3 (corrected).  In the same scenario the pass does attempt entries 4
and 5 (the attempt list covers pending indices 1 through 5), the final
sent-count is 4, entry 3 stays unsent while the other flags are
persisted as sent, and entry 3's error is recorded in the in-memory
first-error slot; the report is the sent-count (the first error is
reported only when no send succeeded, and is never persisted). -/
theorem partial_failure_containment :
    sync_telegram_bot_and_send "T" "C" false []
        [⟨"u1", "f", "k1", "t", false⟩, ⟨"u2", "f", "k2", "t", false⟩,
         ⟨"u3", "f", "k3", "t", false⟩, ⟨"u4", "f", "k4", "t", false⟩,
         ⟨"u5", "f", "k5", "t", false⟩] []
        (fun i _ => if i = 3 then (false, "E3") else (true, ""))
      = ⟨[⟨"u1", "f", "k1", "t", true⟩, ⟨"u2", "f", "k2", "t", true⟩,
          ⟨"u3", "f", "k3", "t", false⟩, ⟨"u4", "f", "k4", "t", true⟩,
          ⟨"u5", "f", "k5", "t", true⟩],
         SyncReport.sentOk 4,
         [(1, "Keyword: k1\nu1"), (2, "Keyword: k2\nu2"), (3, "Keyword: k3\nu3"),
          (4, "Keyword: k4\nu4"), (5, "Keyword: k5\nu5")],
         4, "E3", 5⟩ := by
  rfl

/- ### C4: resendAll behaviour -/

/-- C4 counterexample.  With delivery credentials unavailable, `--resend-all`
exits before loading or resetting anything: nothing is written and the
stored entry keeps `telegram_sent = true`, contradicting the claim that
the reset is applied and persisted even without credentials.  And with
credentials available, the only write is the post-delivery snapshot (here
the entry is sent again, ending `true`), never the all-unsent state. -/
theorem resendAll_claim_counterexample :
    (send_telegram_pending_main "" "" true (Parsed.ok [⟨"u", "f", "k", "t", true⟩]) true
        (fun _ _ => (true, ""))).writes = [] ∧
    (send_telegram_pending_main "" "" true (Parsed.ok [⟨"u", "f", "k", "t", true⟩]) true
        (fun _ _ => (true, ""))).final = [⟨"u", "f", "k", "t", true⟩] ∧
    (send_telegram_pending_main "" "" true (Parsed.ok [⟨"u", "f", "k", "t", true⟩]) true
        (fun _ _ => (true, ""))).report = PendReport.noCredentials ∧
    (send_telegram_pending_main "T" "C" true (Parsed.ok [⟨"u", "f", "k", "t", true⟩]) true
        (fun _ _ => (true, ""))).writes = [[⟨"u", "f", "k", "t", true⟩]] ∧
    ([[(⟨"u", "f", "k", "t", true⟩ : BotEntry)]] : List (List BotEntry))
      ≠ [[⟨"u", "f", "k", "t", false⟩]] := by
  refine ⟨rfl, rfl, rfl, rfl, ?_⟩
  decide

/-- C4 (corrected).  `--resend-all` resets every loaded entry to unsent in
memory only, runs the delivery pass on the reset list, and persists
exactly once, at the end (the persisted snapshot reflects the delivery
outcomes, not the all-unsent state); when delivery credentials are
missing, the command returns before loading the file, so nothing is
reset and nothing is written. -/
theorem resendAll_resets_in_memory_only (token chatId : String)
    (stored : Parsed (List BotEntry)) (oracle : Nat → String → Bool × String) :
    ((send_telegram_pending_main "" chatId true stored true oracle).writes = [] ∧
     (send_telegram_pending_main "" chatId true stored true oracle).final
        = parseList stored) ∧
    (token ≠ "" → chatId ≠ "" →
      (send_telegram_pending_main token chatId true stored true oracle).writes
        = [(send_telegram_pending_main token chatId true stored true oracle).final] ∧
      (send_telegram_pending_main token chatId true stored true oracle).final
        = (runLoop oracle ⟨0, 0, "", []⟩
            ((parseList stored).map (fun e => { e with telegram_sent := false }))).2) := by
  constructor
  · constructor <;> simp [send_telegram_pending_main]
  · intro h1 h2
    have hcred : ¬(token = "" ∨ chatId = "") := by simp [h1, h2]
    by_cases hb : (parseList stored).map (fun e => { e with telegram_sent := false }) = []
    · constructor <;>
        simp [send_telegram_pending_main, hcred, filter_unsent_reset, hb, runLoop]
    · constructor <;>
        simp [send_telegram_pending_main, hcred, filter_unsent_reset, hb]

/-- Witness for C4's amended statement with credentials present, a stored
queue of one already-sent entry, and an always-succeeding send. -/
theorem resendAll_resets_in_memory_only_witness :
    ("T" : String) ≠ "" ∧ ("C" : String) ≠ "" ∧
    ((send_telegram_pending_main "T" "C" true
        (Parsed.ok [⟨"u", "f", "k", "t", true⟩]) true (fun _ _ => (true, ""))).writes
      = [(send_telegram_pending_main "T" "C" true
        (Parsed.ok [⟨"u", "f", "k", "t", true⟩]) true (fun _ _ => (true, ""))).final] ∧
     (send_telegram_pending_main "T" "C" true
        (Parsed.ok [⟨"u", "f", "k", "t", true⟩]) true (fun _ _ => (true, ""))).final
      = (runLoop (fun _ _ => (true, "")) ⟨0, 0, "", []⟩
          ((parseList (Parsed.ok [⟨"u", "f", "k", "t", true⟩])).map
            (fun e => { e with telegram_sent := false }))).2) :=
  ⟨by decide, by decide,
   (resendAll_resets_in_memory_only "T" "C" (Parsed.ok [⟨"u", "f", "k", "t", true⟩])
      (fun _ _ => (true, ""))).2 (by decide) (by decide)⟩

/- ### C7: corrupt persisted state -/

/-- C7 counterexample.  A corrupt `activity.json` is not treated as empty:
`_save_activity` calls `json.load` with no exception handling, so the
load raises and the operation aborts instead of producing the
treat-as-empty result. -/
theorem corrupt_activity_store_raises :
    save_activity_run "t" [("k", [⟨"a", "T", "s", "d"⟩])] (some Parsed.corrupt)
        = Except.error "JSONDecodeError" ∧
    save_activity_run "t" [("k", [⟨"a", "T", "s", "d"⟩])] (some Parsed.corrupt)
        ≠ Except.ok (save_activity "t" [("k", [⟨"a", "T", "s", "d"⟩])] []) := by
  refine ⟨rfl, ?_⟩
  intro h
  exact Except.noConfusion h

/-- C7 (corrected).  Only the notification-queue store recovers from
corruption: a corrupt `telegram_bot.json` is loaded as the empty list and
does not block new entries from being saved on the same pass, but a
corrupt `activity.json` raises and aborts the activity save. -/
theorem corrupt_state_recovery :
    (loadBotFile true Parsed.corrupt = []) ∧
    (∀ (run_at : String) (results : List (String × List SearchResult)),
      save_activity_run run_at results (some Parsed.corrupt)
        = Except.error "JSONDecodeError") ∧
    (∀ (token chatId : String) (activityExists : Bool) (activity : List ActivityEntry)
        (newEntries : List ActivityEntry) (oracle : Nat → String → Bool × String),
      ∀ e ∈ newEntries, e.url ≠ "" →
        e.url ∈ ((sync_telegram_bot_and_send token chatId activityExists activity
            (loadBotFile true Parsed.corrupt) newEntries oracle).bot).map (·.url)) := by
  refine ⟨rfl, fun _ _ => rfl, ?_⟩
  intro token chatId activityExists activity newEntries oracle e he hne
  rw [sync_bot_urls]
  unfold syncBotList
  exact appendNewLoop_superset newEntries _ e he hne

/-- Witness for C7's amended statement: with a corrupt queue document, a new
entry's url still reaches the persisted queue. -/
theorem corrupt_state_recovery_witness :
    ((⟨"a", "f", "k", "t"⟩ : ActivityEntry) ∈ ([⟨"a", "f", "k", "t"⟩] : List ActivityEntry)) ∧
    ("a" : String) ≠ "" ∧
    ("a" ∈ ((sync_telegram_bot_and_send "T" "C" true []
        (loadBotFile true Parsed.corrupt) [⟨"a", "f", "k", "t"⟩]
        (fun _ _ => (true, ""))).bot).map (·.url)) :=
  ⟨by decide, by decide,
   corrupt_state_recovery.2.2 "T" "C" true [] [⟨"a", "f", "k", "t"⟩]
     (fun _ _ => (true, "")) ⟨"a", "f", "k", "t"⟩ (by decide) (by decide)⟩

/- ### C1: a run without search-provider credentials -/

/-- With all credential strings empty and a positive result count,
`search_google` raises the CSE missing-credentials `ValueError` without
contacting a provider (`use_serpapi` defaults to `bool(serp_key)`, i.e.
false). -/
theorem search_google_no_creds (keyword lang : String) (n : Int)
    (serpApi : String → Int → String → Except String (List SearchResult))
    (cseApi : String → Int → String → String → String → Except String (List SearchResult))
    (hn : ¬n ≤ 0) :
    search_google keyword n "" "" "" lang none serpApi cseApi
      = (Except.error cseCredsMissingMsg, false) := by
  unfold search_google
  rw [if_neg hn]
  rfl

theorem map_results_error (ks : List String)
    (f : String → Except String (List SearchResult)) (m : String)
    (hf : ∀ kw, f kw = Except.error m) :
    ks.map (fun kw => (kw, match f kw with
                           | Except.ok rs => rs
                           | Except.error _ => ([] : List SearchResult)))
      = ks.map (fun kw => (kw, [])) := by
  simp only [hf]

theorem filterMap_results_error (ks : List String)
    (f : String → Except String (List SearchResult)) (m : String)
    (hf : ∀ kw, f kw = Except.error m) :
    ks.filterMap (fun kw => match f kw with
                            | Except.ok _ => none
                            | Except.error e => some (kw, e))
      = ks.map (fun kw => (kw, m)) := by
  induction ks with
  | nil => rfl
  | cons k rest ih =>
    simp only [List.filterMap_cons]
    rw [hf k]
    simpa using ih

/-- C1 counterexample.  With no search-provider credentials configured at
all, a run over one keyword does not abort: the credential `ValueError`
is caught by the per-keyword handler, a history entry (with an empty
result list) is written, and the run proceeds through the notification
sync — contradicting the claim that nothing is persisted. -/
theorem no_credentials_run_persists_history :
    (run_main ["k"] "2024-01-01T00:00:00Z"
        (fun kw => (search_google kw 10 "" "" "" "lang_en" none
          (fun _ _ _ => Except.ok []) (fun _ _ _ _ _ => Except.ok [])).1)
        "" "" emptyRunState (fun _ _ => (true, ""))).state.history
      = [("2024-01-01T00:00:00Z", [("k", [])])] ∧
    (run_main ["k"] "2024-01-01T00:00:00Z"
        (fun kw => (search_google kw 10 "" "" "" "lang_en" none
          (fun _ _ _ => Except.ok []) (fun _ _ _ _ _ => Except.ok [])).1)
        "" "" emptyRunState (fun _ _ => (true, ""))).state.historyExists = true ∧
    (run_main ["k"] "2024-01-01T00:00:00Z"
        (fun kw => (search_google kw 10 "" "" "" "lang_en" none
          (fun _ _ _ => Except.ok []) (fun _ _ _ _ _ => Except.ok [])).1)
        "" "" emptyRunState (fun _ _ => (true, ""))).sync.report
      = SyncReport.nothingToSend ∧
    (run_main ["k"] "2024-01-01T00:00:00Z"
        (fun kw => (search_google kw 10 "" "" "" "lang_en" none
          (fun _ _ _ => Except.ok []) (fun _ _ _ _ _ => Except.ok [])).1)
        "" "" emptyRunState (fun _ _ => (true, ""))).state.history
      ≠ ([] : List (String × List (String × List SearchResult))) := by
  refine ⟨rfl, rfl, rfl, ?_⟩
  decide

/-- C1 (corrected).  A run with no valid search-provider credentials does
not abort: each keyword's credential `ValueError` is caught and reported
per keyword, its result list is recorded as empty, a history entry with
all-empty results is appended, the activity store is left unchanged, and
the run proceeds to the notification sync with no new entries. -/
theorem run_without_credentials_reports_and_continues
    (keywords : List String) (run_at token chatId lang : String) (st : RunState)
    (oracle : Nat → String → Bool × String) (n : Int)
    (serpApi : String → Int → String → Except String (List SearchResult))
    (cseApi : String → Int → String → String → String → Except String (List SearchResult))
    (hn : 1 ≤ n) :
    (run_main keywords run_at
        (fun kw => (search_google kw n "" "" "" lang none serpApi cseApi).1)
        token chatId st oracle).keywordErrors
      = keywords.map (fun kw => (kw, cseCredsMissingMsg)) ∧
    (run_main keywords run_at
        (fun kw => (search_google kw n "" "" "" lang none serpApi cseApi).1)
        token chatId st oracle).state.history
      = st.history ++ [(run_at, keywords.map (fun kw => (kw, [])))] ∧
    (run_main keywords run_at
        (fun kw => (search_google kw n "" "" "" lang none serpApi cseApi).1)
        token chatId st oracle).state.activity
      = (if st.activityExists = true then st.activity else []) ∧
    (run_main keywords run_at
        (fun kw => (search_google kw n "" "" "" lang none serpApi cseApi).1)
        token chatId st oracle).sync
      = sync_telegram_bot_and_send token chatId true
          (if st.activityExists = true then st.activity else [])
          (if st.botExists = true then st.bot else []) [] oracle := by
  have hsg : ∀ kw, (search_google kw n "" "" "" lang none serpApi cseApi).1
      = Except.error cseCredsMissingMsg := by
    intro kw
    rw [search_google_no_creds kw lang n serpApi cseApi (by omega)]
  refine ⟨?_, ?_, ?_, ?_⟩
  · simp only [run_main]
    rw [filterMap_results_error keywords _ cseCredsMissingMsg hsg]
  · simp only [run_main, full_run]
    rw [map_results_error keywords _ cseCredsMissingMsg hsg]
  · simp only [run_main, full_run]
    rw [map_results_error keywords _ cseCredsMissingMsg hsg, save_activity_all_empty]
  · simp only [run_main, full_run]
    rw [map_results_error keywords _ cseCredsMissingMsg hsg, save_activity_all_empty]

/-- Witness for C1's amended statement: one keyword, no credentials, empty
initial state. -/
theorem run_without_credentials_witness :
    (1 : Int) ≤ 10 ∧
    (run_main ["k"] "t"
        (fun kw => (search_google kw 10 "" "" "" "lang_en" none
          (fun _ _ _ => Except.ok []) (fun _ _ _ _ _ => Except.ok [])).1)
        "" "" emptyRunState (fun _ _ => (true, ""))).keywordErrors
      = ["k"].map (fun kw => (kw, cseCredsMissingMsg)) ∧
    (run_main ["k"] "t"
        (fun kw => (search_google kw 10 "" "" "" "lang_en" none
          (fun _ _ _ => Except.ok []) (fun _ _ _ _ _ => Except.ok [])).1)
        "" "" emptyRunState (fun _ _ => (true, ""))).state.activity
      = (if emptyRunState.activityExists = true then emptyRunState.activity else []) :=
  ⟨by decide,
   (run_without_credentials_reports_and_continues ["k"] "t" "" "" "lang_en"
      emptyRunState (fun _ _ => (true, "")) 10
      (fun _ _ _ => Except.ok []) (fun _ _ _ _ _ => Except.ok []) (by decide)).1,
   (run_without_credentials_reports_and_continues ["k"] "t" "" "" "lang_en"
      emptyRunState (fun _ _ => (true, "")) 10
      (fun _ _ _ => Except.ok []) (fun _ _ _ _ _ => Except.ok []) (by decide)).2.2.1⟩

/- ### C2: superset invariant across run sequences -/

/-- Invariant maintained by the pipeline across complete runs: flags about
absent files agree with empty contents, activity urls are truthy, and
every activity url already appears in the bot queue. -/
def GoodState (st : RunState) : Prop :=
  (st.activityExists = false → st.activity = []) ∧
  (st.botExists = false → st.activity = []) ∧
  (∀ a ∈ st.activity, a.url ≠ "") ∧
  (∀ u ∈ st.activity.map (·.url), u ∈ st.bot.map (·.url))

theorem goodState_empty : GoodState emptyRunState := by
  refine ⟨fun _ => rfl, fun _ => rfl, ?_, ?_⟩
  · intro a ha; cases ha
  · intro u hu; cases hu

theorem full_run_preserves_good (run_at : String)
    (results : List (String × List SearchResult)) (token chatId : String)
    (st : RunState) (oracle : Nat → String → Bool × String)
    (h : GoodState st) :
    GoodState (full_run run_at results token chatId st oracle).1 := by
  obtain ⟨hae, hbe, htruthy, hsup⟩ := h
  simp only [full_run, GoodState]
  refine ⟨(by intro hc; cases hc), (by intro hc; cases hc), ?_, ?_⟩
  · -- truthiness of the new activity store
    intro a ha
    rw [save_activity_fst] at ha
    rcases List.mem_append.mp ha with ha | ha
    · by_cases hx : st.activityExists = true
      · rw [if_pos hx] at ha; exact htruthy a ha
      · rw [if_neg hx] at ha; cases ha
    · exact save_activity_new_truthy run_at results _ a ha
  · -- every activity url is in the synced bot list
    intro u hu
    rw [sync_bot_urls]
    set activityLoad := if st.activityExists = true then st.activity else [] with hal
    set botLoad := if st.botExists = true then st.bot else [] with hblo
    by_cases hb : botLoad = []
    · -- backfill covers the freshly written activity file
      have hcond : botLoad = [] ∧ (true : Bool) = true := ⟨hb, rfl⟩
      unfold syncBotList
      rw [if_pos hcond]
      obtain ⟨a, ha, hau⟩ := List.mem_map.mp hu
      subst hau
      apply appendNewLoop_urls_mono
      apply backfillLoop_superset _ _ a ha
      -- truthiness, as in the previous conjunct
      rw [save_activity_fst] at ha
      rcases List.mem_append.mp ha with ha | ha
      · by_cases hx : st.activityExists = true
        · rw [hal, if_pos hx] at ha; exact htruthy a ha
        · rw [hal, if_neg hx] at ha; cases ha
      · exact save_activity_new_truthy run_at results _ a ha
    · -- no backfill; old urls are covered by the invariant, new ones appended
      have hcond : ¬(botLoad = [] ∧ (true : Bool) = true) := fun hc => hb hc.1
      unfold syncBotList
      rw [if_neg hcond]
      have hbl2 : botLoad = st.bot := by
        by_cases hx : st.botExists = true
        · rw [hblo, if_pos hx]
        · exfalso
          apply hb
          rw [hblo, if_neg hx]
      rw [save_activity_fst, List.map_append] at hu
      rcases List.mem_append.mp hu with hu | hu
      · -- url from the prior activity store
        have hu' : u ∈ st.activity.map (·.url) := by
          by_cases hx : st.activityExists = true
          · rw [hal, if_pos hx] at hu; exact hu
          · rw [hal, if_neg hx] at hu; cases hu
        exact appendNewLoop_urls_mono _ _ u (hbl2 ▸ hsup u hu')
      · -- url from a new entry of this run
        obtain ⟨a, ha, hau⟩ := List.mem_map.mp hu
        subst hau
        exact appendNewLoop_superset _ _ a ha
          (save_activity_new_truthy run_at results _ a ha)

theorem runSequence_good (inputs : List RunInput) : GoodState (runSequence inputs) := by
  suffices h : ∀ (l : List RunInput) (st : RunState), GoodState st →
      GoodState (l.foldl
        (fun st inp =>
          (full_run inp.run_at inp.results inp.token inp.chatId st inp.oracle).1) st) by
    exact h inputs emptyRunState goodState_empty
  intro l
  induction l with
  | nil => intro st hst; exact hst
  | cons inp rest ih =>
    intro st hst
    exact ih _ (full_run_preserves_good _ _ _ _ _ _ hst)

/-- C2 (confirmed).  After any sequence of complete runs starting from empty
stores, every url present in the activity store also appears in the
notification queue. -/
theorem notification_superset_invariant (inputs : List RunInput) (u : String)
    (hu : u ∈ (runSequence inputs).activity.map (·.url)) :
    u ∈ (runSequence inputs).bot.map (·.url) :=
  (runSequence_good inputs).2.2.2 u hu

/-- Witness for C2: one run discovering url `a` with no Telegram credentials
configured; `a` is in the activity store and in the queue. -/
theorem notification_superset_invariant_witness :
    ("a" ∈ (runSequence [⟨"t", [("k", [⟨"a", "T", "s", "d"⟩])], "", "",
        fun _ _ => (true, "")⟩]).activity.map (·.url)) ∧
    ("a" ∈ (runSequence [⟨"t", [("k", [⟨"a", "T", "s", "d"⟩])], "", "",
        fun _ _ => (true, "")⟩]).bot.map (·.url)) :=
  ⟨by decide,
   notification_superset_invariant
     [⟨"t", [("k", [⟨"a", "T", "s", "d"⟩])], "", "", fun _ _ => (true, "")⟩]
     "a" (by decide)⟩

/- ### C8: sent-flag state machine -/

/-- C8 (confirmed).  Across both operations that touch the queue, an entry
present before and after (same position; both operations preserve loaded
entries positionally) changes its `telegram_sent` flag only as the state
machine allows: in a sync pass a sent entry is untouched and an unsent
entry either stays as it was or becomes sent because the send oracle
confirmed a successful delivery of that entry's message; in the pending
sender, sent can become unsent only when `--resend-all` was given, and
unsent becomes sent only on a confirmed successful delivery of that
entry's message. -/
theorem sent_flag_transitions :
    (∀ (token chatId : String) (activityExists : Bool) (activity : List ActivityEntry)
        (botLoad : List BotEntry) (newEntries : List ActivityEntry)
        (oracle : Nat → String → Bool × String) (i : Nat) (b a : BotEntry),
      botLoad[i]? = some b →
      ((sync_telegram_bot_and_send token chatId activityExists activity botLoad
          newEntries oracle).bot)[i]? = some a →
      ((b.telegram_sent = true → a = b) ∧
       (b.telegram_sent = false →
         a = b ∨ (a = { b with telegram_sent := true } ∧
           ∃ j, (oracle j (msgOf b)).1 = true)))) ∧
    (∀ (token chatId : String) (fileExists : Bool) (stored : Parsed (List BotEntry))
        (resendAll : Bool) (oracle : Nat → String → Bool × String) (i : Nat) (b a : BotEntry),
      (parseList stored)[i]? = some b →
      ((send_telegram_pending_main token chatId fileExists stored resendAll oracle).final)[i]?
          = some a →
      ((b.telegram_sent = true → a.telegram_sent = false → resendAll = true) ∧
       (b.telegram_sent = false → a.telegram_sent = true →
         ∃ j, (oracle j (msgOf b)).1 = true))) := by
  constructor
  · intro token chatId activityExists activity botLoad newEntries oracle i b a hb ha
    have hne : botLoad ≠ [] := by
      intro h
      subst h
      simp at hb
    have hcond : ¬(botLoad = [] ∧ activityExists = true) := fun hc => hne hc.1
    obtain ⟨zs, hzs⟩ := appendNewLoop_eq_append newEntries botLoad
    have hbl : syncBotList activityExists activity botLoad newEntries = botLoad ++ zs := by
      unfold syncBotList
      rw [if_neg hcond]
      exact hzs
    have hblget : (syncBotList activityExists activity botLoad newEntries)[i]? = some b := by
      rw [hbl]
      exact getElem?_append_l botLoad zs i b hb
    by_cases hp : (syncBotList activityExists activity botLoad newEntries).filter
        (fun e => !e.telegram_sent) = []
    · have hbot : (sync_telegram_bot_and_send token chatId activityExists activity botLoad
          newEntries oracle).bot = syncBotList activityExists activity botLoad newEntries := by
        simp [sync_telegram_bot_and_send, hp]
      rw [hbot, hblget, Option.some.injEq] at ha
      subst ha
      exact ⟨fun _ => rfl, fun _ => Or.inl rfl⟩
    · by_cases hcred : token = "" ∨ chatId = ""
      · have hbot : (sync_telegram_bot_and_send token chatId activityExists activity botLoad
            newEntries oracle).bot = syncBotList activityExists activity botLoad newEntries := by
          simp [sync_telegram_bot_and_send, hp, hcred]
        rw [hbot, hblget, Option.some.injEq] at ha
        subst ha
        exact ⟨fun _ => rfl, fun _ => Or.inl rfl⟩
      · have hbot : (sync_telegram_bot_and_send token chatId activityExists activity botLoad
            newEntries oracle).bot
            = (runLoop oracle ⟨0, 0, "", []⟩
                (syncBotList activityExists activity botLoad newEntries)).2 := by
          simp [sync_telegram_bot_and_send, hp, hcred]
        obtain ⟨a0, ha0, hcase⟩ :=
          runLoop_getElem? oracle (syncBotList activityExists activity botLoad newEntries)
            ⟨0, 0, "", []⟩ i b hblget
        rw [hbot, ha0, Option.some.injEq] at ha
        subst ha
        rcases hcase with rfl | ⟨hsent, _, rfl, j, hj⟩
        · exact ⟨fun _ => rfl, fun _ => Or.inl rfl⟩
        · refine ⟨?_, ?_⟩
          · intro hbs
            rw [hbs] at hsent
            cases hsent
          · intro _
            exact Or.inr ⟨rfl, ⟨j, hj⟩⟩
  · intro token chatId fileExists stored resendAll oracle i b a hb ha
    by_cases hcred : token = "" ∨ chatId = ""
    · have hfin : (send_telegram_pending_main token chatId fileExists stored resendAll
          oracle).final = parseList stored := by
        simp [send_telegram_pending_main, hcred]
      rw [hfin, hb, Option.some.injEq] at ha
      subst ha
      refine ⟨?_, ?_⟩
      · intro h1 h2
        rw [h1] at h2
        cases h2
      · intro h1 h2
        rw [h1] at h2
        cases h2
    · by_cases hfe : fileExists = true
      · subst hfe
        cases resendAll with
        | true =>
          have hbm : ((parseList stored).map (fun e => { e with telegram_sent := false }))[i]?
              = some { b with telegram_sent := false } :=
            getElem?_map_some _ _ i b hb
          by_cases hp : ((parseList stored).map
              (fun e => { e with telegram_sent := false })).filter
              (fun e => !e.telegram_sent) = []
          · have hfin : (send_telegram_pending_main token chatId true stored true
                oracle).final
                = (parseList stored).map (fun e => { e with telegram_sent := false }) := by
              simp [send_telegram_pending_main, hcred, hp]
            rw [hfin, hbm, Option.some.injEq] at ha
            subst ha
            refine ⟨fun _ _ => rfl, ?_⟩
            intro _ h2
            simp at h2
          · have hfin : (send_telegram_pending_main token chatId true stored true
                oracle).final
                = (runLoop oracle ⟨0, 0, "", []⟩
                    ((parseList stored).map (fun e => { e with telegram_sent := false }))).2 := by
              simp [send_telegram_pending_main, hcred, hp]
            obtain ⟨a0, ha0, hcase⟩ :=
              runLoop_getElem? oracle
                ((parseList stored).map (fun e => { e with telegram_sent := false }))
                ⟨0, 0, "", []⟩ i _ hbm
            rw [hfin, ha0, Option.some.injEq] at ha
            subst ha
            refine ⟨fun _ _ => rfl, ?_⟩
            intro _ h2
            rcases hcase with rfl | ⟨_, _, rfl, j, hj⟩
            · simp at h2
            · exact ⟨j, hj⟩
        | false =>
          by_cases hp : (parseList stored).filter (fun e => !e.telegram_sent) = []
          · have hfin : (send_telegram_pending_main token chatId true stored false
                oracle).final = parseList stored := by
              simp [send_telegram_pending_main, hcred, hp]
            rw [hfin, hb, Option.some.injEq] at ha
            subst ha
            refine ⟨?_, ?_⟩
            · intro h1 h2
              rw [h1] at h2
              cases h2
            · intro h1 h2
              rw [h1] at h2
              cases h2
          · have hfin : (send_telegram_pending_main token chatId true stored false
                oracle).final
                = (runLoop oracle ⟨0, 0, "", []⟩ (parseList stored)).2 := by
              simp [send_telegram_pending_main, hcred, hp]
            obtain ⟨a0, ha0, hcase⟩ :=
              runLoop_getElem? oracle (parseList stored) ⟨0, 0, "", []⟩ i b hb
            rw [hfin, ha0, Option.some.injEq] at ha
            subst ha
            refine ⟨?_, ?_⟩
            · intro h1 h2
              rcases hcase with rfl | ⟨hsent, _, rfl, _, _⟩
              · rw [h1] at h2
                cases h2
              · rw [h1] at hsent
                cases hsent
            · intro h1 h2
              rcases hcase with rfl | ⟨_, _, rfl, j, hj⟩
              · rw [h1] at h2
                cases h2
              · exact ⟨j, hj⟩
      · have hff : fileExists = false := by
          cases fileExists
          · rfl
          · exact absurd rfl hfe
        subst hff
        have hfin : (send_telegram_pending_main token chatId false stored resendAll
            oracle).final = parseList stored := by
          simp [send_telegram_pending_main, hcred]
        rw [hfin, hb, Option.some.injEq] at ha
        subst ha
        refine ⟨?_, ?_⟩
        · intro h1 h2
          rw [h1] at h2
          cases h2
        · intro h1 h2
          rw [h1] at h2
          cases h2

/-- Witness for C8: both parts applied to a one-entry queue with an
always-succeeding send oracle. -/
theorem sent_flag_transitions_witness :
    (([(⟨"u", "f", "k", "t", false⟩ : BotEntry)])[0]?
        = some (⟨"u", "f", "k", "t", false⟩ : BotEntry)) ∧
    (((sync_telegram_bot_and_send "T" "C" false [] [⟨"u", "f", "k", "t", false⟩] []
        (fun _ _ => (true, ""))).bot)[0]? = some (⟨"u", "f", "k", "t", true⟩ : BotEntry)) ∧
    (((⟨"u", "f", "k", "t", false⟩ : BotEntry).telegram_sent = true →
        (⟨"u", "f", "k", "t", true⟩ : BotEntry) = ⟨"u", "f", "k", "t", false⟩) ∧
     ((⟨"u", "f", "k", "t", false⟩ : BotEntry).telegram_sent = false →
        (⟨"u", "f", "k", "t", true⟩ : BotEntry) = ⟨"u", "f", "k", "t", false⟩ ∨
          ((⟨"u", "f", "k", "t", true⟩ : BotEntry)
              = { (⟨"u", "f", "k", "t", false⟩ : BotEntry) with telegram_sent := true } ∧
           ∃ j, ((fun (_ : Nat) (_ : String) => (true, "")) j
              (msgOf ⟨"u", "f", "k", "t", false⟩)).1 = true))) ∧
    ((parseList (Parsed.ok [⟨"u", "f", "k", "t", true⟩]))[0]?
        = some (⟨"u", "f", "k", "t", true⟩ : BotEntry)) ∧
    (((send_telegram_pending_main "T" "C" true (Parsed.ok [⟨"u", "f", "k", "t", true⟩]) true
        (fun _ _ => (true, ""))).final)[0]? = some (⟨"u", "f", "k", "t", true⟩ : BotEntry)) ∧
    (((⟨"u", "f", "k", "t", true⟩ : BotEntry).telegram_sent = true →
        (⟨"u", "f", "k", "t", true⟩ : BotEntry).telegram_sent = false → true = true) ∧
     ((⟨"u", "f", "k", "t", true⟩ : BotEntry).telegram_sent = false →
        (⟨"u", "f", "k", "t", true⟩ : BotEntry).telegram_sent = true →
         ∃ j, ((fun (_ : Nat) (_ : String) => (true, "")) j
            (msgOf ⟨"u", "f", "k", "t", true⟩)).1 = true)) :=
  ⟨by decide, by decide,
   sent_flag_transitions.1 "T" "C" false [] [⟨"u", "f", "k", "t", false⟩] []
     (fun _ _ => (true, "")) 0 ⟨"u", "f", "k", "t", false⟩ ⟨"u", "f", "k", "t", true⟩
     (by decide) (by decide),
   by decide, by decide,
   sent_flag_transitions.2 "T" "C" true (Parsed.ok [⟨"u", "f", "k", "t", true⟩]) true
     (fun _ _ => (true, "")) 0 ⟨"u", "f", "k", "t", true⟩ ⟨"u", "f", "k", "t", true⟩
     (by decide) (by decide)⟩

/- ### C9: a pending entry with an empty url is stuck forever -/

/-- C9 (confirmed).  In every delivery pass, a pending entry whose url is
empty is skipped by `continue` without any send attempt (its enumerate
index never appears among the attempts), its flag stays `false`, and it
is persisted still-pending at its position; yet it is counted in the
announced total of pending entries (`totalPending`).  This holds for the
sync pass of a run, for the pending-only sender (whose single write is
the final list containing the entry still unsent), and for the
`--resend-all` pass — so across any sequence of future runs the entry
remains pending and is never delivered. -/
theorem empty_url_entry_stuck_pending
    (token chatId : String) (pre suf : List BotEntry) (fs kw ttl : String)
    (activityExists : Bool) (activity newEntries : List ActivityEntry)
    (oracle : Nat → String → Bool × String)
    (h1 : token ≠ "") (h2 : chatId ≠ "") :
    (((sync_telegram_bot_and_send token chatId activityExists activity
        (pre ++ ⟨"", fs, kw, ttl, false⟩ :: suf) newEntries oracle).bot)[pre.length]?
        = some (⟨"", fs, kw, ttl, false⟩ : BotEntry) ∧
      ∀ t, ((pre.filter (fun x => !x.telegram_sent)).length + 1, t)
        ∉ (sync_telegram_bot_and_send token chatId activityExists activity
            (pre ++ ⟨"", fs, kw, ttl, false⟩ :: suf) newEntries oracle).attempts) ∧
    (((send_telegram_pending_main token chatId true
        (Parsed.ok (pre ++ ⟨"", fs, kw, ttl, false⟩ :: suf)) false oracle).final)[pre.length]?
        = some (⟨"", fs, kw, ttl, false⟩ : BotEntry) ∧
      (∀ t, ((pre.filter (fun x => !x.telegram_sent)).length + 1, t)
        ∉ (send_telegram_pending_main token chatId true
            (Parsed.ok (pre ++ ⟨"", fs, kw, ttl, false⟩ :: suf)) false oracle).attempts) ∧
      (send_telegram_pending_main token chatId true
          (Parsed.ok (pre ++ ⟨"", fs, kw, ttl, false⟩ :: suf)) false oracle).totalPending
        = (pre.filter (fun x => !x.telegram_sent)).length + 1
            + (suf.filter (fun x => !x.telegram_sent)).length ∧
      (send_telegram_pending_main token chatId true
          (Parsed.ok (pre ++ ⟨"", fs, kw, ttl, false⟩ :: suf)) false oracle).writes
        = [(send_telegram_pending_main token chatId true
            (Parsed.ok (pre ++ ⟨"", fs, kw, ttl, false⟩ :: suf)) false oracle).final]) ∧
    ((send_telegram_pending_main token chatId true
        (Parsed.ok (pre ++ ⟨"", fs, kw, ttl, false⟩ :: suf)) true oracle).final)[pre.length]?
      = some (⟨"", fs, kw, ttl, false⟩ : BotEntry) := by
  have hcred : ¬(token = "" ∨ chatId = "") := by simp [h1, h2]
  refine ⟨?_, ?_, ?_⟩
  · -- one sync pass of run_keywords
    have hcond : ¬(pre ++ (⟨"", fs, kw, ttl, false⟩ : BotEntry) :: suf = []
        ∧ activityExists = true) := by
      intro hc
      exact absurd hc.1 (by simp)
    obtain ⟨zs, hzs⟩ :=
      appendNewLoop_eq_append newEntries (pre ++ (⟨"", fs, kw, ttl, false⟩ : BotEntry) :: suf)
    have hbl : syncBotList activityExists activity
        (pre ++ (⟨"", fs, kw, ttl, false⟩ : BotEntry) :: suf) newEntries
        = pre ++ (⟨"", fs, kw, ttl, false⟩ : BotEntry) :: (suf ++ zs) := by
      unfold syncBotList
      rw [if_neg hcond, hzs]
      simp
    have hmem : (⟨"", fs, kw, ttl, false⟩ : BotEntry)
        ∈ (pre ++ (⟨"", fs, kw, ttl, false⟩ : BotEntry) :: (suf ++ zs)).filter
            (fun x => !x.telegram_sent) :=
      List.mem_filter.mpr ⟨by simp, rfl⟩
    have hp : ¬((pre ++ (⟨"", fs, kw, ttl, false⟩ : BotEntry) :: (suf ++ zs)).filter
        (fun x => !x.telegram_sent) = []) := by
      intro hnil
      rw [hnil] at hmem
      cases hmem
    have hbot : (sync_telegram_bot_and_send token chatId activityExists activity
        (pre ++ (⟨"", fs, kw, ttl, false⟩ : BotEntry) :: suf) newEntries oracle).bot
        = (runLoop oracle ⟨0, 0, "", []⟩
            (pre ++ (⟨"", fs, kw, ttl, false⟩ : BotEntry) :: (suf ++ zs))).2 := by
      simp [sync_telegram_bot_and_send, hbl, hp, hcred]
    have hatt : (sync_telegram_bot_and_send token chatId activityExists activity
        (pre ++ (⟨"", fs, kw, ttl, false⟩ : BotEntry) :: suf) newEntries oracle).attempts
        = (runLoop oracle ⟨0, 0, "", []⟩
            (pre ++ (⟨"", fs, kw, ttl, false⟩ : BotEntry) :: (suf ++ zs))).1.attempts := by
      simp [sync_telegram_bot_and_send, hbl, hp, hcred]
    obtain ⟨hpos, hskip⟩ := runLoop_skip oracle pre (suf ++ zs)
      (⟨"", fs, kw, ttl, false⟩ : BotEntry) rfl rfl
    rw [hbot, hatt]
    exact ⟨hpos, hskip⟩
  · -- the pending-only sender
    have hmem : (⟨"", fs, kw, ttl, false⟩ : BotEntry)
        ∈ (pre ++ (⟨"", fs, kw, ttl, false⟩ : BotEntry) :: suf).filter
            (fun x => !x.telegram_sent) :=
      List.mem_filter.mpr ⟨by simp, rfl⟩
    have hp : ¬((pre ++ (⟨"", fs, kw, ttl, false⟩ : BotEntry) :: suf).filter
        (fun x => !x.telegram_sent) = []) := by
      intro hnil
      rw [hnil] at hmem
      cases hmem
    have hfin : (send_telegram_pending_main token chatId true
        (Parsed.ok (pre ++ (⟨"", fs, kw, ttl, false⟩ : BotEntry) :: suf)) false oracle).final
        = (runLoop oracle ⟨0, 0, "", []⟩
            (pre ++ (⟨"", fs, kw, ttl, false⟩ : BotEntry) :: suf)).2 := by
      simp [send_telegram_pending_main, hcred, parseList, hp]
    have hatt : (send_telegram_pending_main token chatId true
        (Parsed.ok (pre ++ (⟨"", fs, kw, ttl, false⟩ : BotEntry) :: suf)) false oracle).attempts
        = (runLoop oracle ⟨0, 0, "", []⟩
            (pre ++ (⟨"", fs, kw, ttl, false⟩ : BotEntry) :: suf)).1.attempts := by
      simp [send_telegram_pending_main, hcred, parseList, hp]
    have hwr : (send_telegram_pending_main token chatId true
        (Parsed.ok (pre ++ (⟨"", fs, kw, ttl, false⟩ : BotEntry) :: suf)) false oracle).writes
        = [(send_telegram_pending_main token chatId true
            (Parsed.ok (pre ++ (⟨"", fs, kw, ttl, false⟩ : BotEntry) :: suf)) false
            oracle).final] := by
      simp [send_telegram_pending_main, hcred, parseList, hp]
    have htot : (send_telegram_pending_main token chatId true
        (Parsed.ok (pre ++ (⟨"", fs, kw, ttl, false⟩ : BotEntry) :: suf)) false
        oracle).totalPending
        = (pre.filter (fun x => !x.telegram_sent)).length + 1
            + (suf.filter (fun x => !x.telegram_sent)).length := by
      have : ((pre ++ (⟨"", fs, kw, ttl, false⟩ : BotEntry) :: suf).filter
          (fun x => !x.telegram_sent)).length
          = (pre.filter (fun x => !x.telegram_sent)).length + 1
              + (suf.filter (fun x => !x.telegram_sent)).length := by
        simp [List.filter_append, List.filter_cons]
        omega
      rw [← this]
      simp [send_telegram_pending_main, hcred, parseList, hp]
    obtain ⟨hpos, hskip⟩ := runLoop_skip oracle pre suf
      (⟨"", fs, kw, ttl, false⟩ : BotEntry) rfl rfl
    refine ⟨?_, ?_, htot, hwr⟩
    · rw [hfin]
      exact hpos
    · rw [hatt]
      exact hskip
  · -- the resend-all pass: the entry is reset to the same unsent state and
    -- still skipped
    have hmap : (pre ++ (⟨"", fs, kw, ttl, false⟩ : BotEntry) :: suf).map
        (fun x => { x with telegram_sent := false })
        = pre.map (fun x => { x with telegram_sent := false })
          ++ (⟨"", fs, kw, ttl, false⟩ : BotEntry)
            :: suf.map (fun x => { x with telegram_sent := false }) := by
      simp
    have hmapne : ¬((pre ++ (⟨"", fs, kw, ttl, false⟩ : BotEntry) :: suf).map
        (fun x => { x with telegram_sent := false }) = []) := by
      simp
    have hfin : (send_telegram_pending_main token chatId true
        (Parsed.ok (pre ++ (⟨"", fs, kw, ttl, false⟩ : BotEntry) :: suf)) true oracle).final
        = (runLoop oracle ⟨0, 0, "", []⟩
            ((pre ++ (⟨"", fs, kw, ttl, false⟩ : BotEntry) :: suf).map
              (fun x => { x with telegram_sent := false }))).2 := by
      simp [send_telegram_pending_main, hcred, parseList, filter_unsent_reset, hmapne]
    rw [hfin, hmap]
    have hlm : (pre.map (fun x => { x with telegram_sent := false })).length = pre.length :=
      List.length_map _ _
    rw [← hlm]
    exact (runLoop_skip oracle (pre.map (fun x => { x with telegram_sent := false }))
      (suf.map (fun x => { x with telegram_sent := false }))
      (⟨"", fs, kw, ttl, false⟩ : BotEntry) rfl rfl).1

/-- Witness for C9: queue `[u1-entry, empty-url-entry]` with credentials and
an always-succeeding oracle; the empty-url entry is still unsent at
position 1 after the sync pass. -/
theorem empty_url_entry_stuck_pending_witness :
    ("T" : String) ≠ "" ∧ ("C" : String) ≠ "" ∧
    (((sync_telegram_bot_and_send "T" "C" false []
        ([⟨"u1", "f", "k1", "t", false⟩] ++ ⟨"", "f", "kw", "t", false⟩ :: []) []
        (fun _ _ => (true, ""))).bot)[([⟨"u1", "f", "k1", "t", false⟩] :
          List BotEntry).length]?
      = some (⟨"", "f", "kw", "t", false⟩ : BotEntry)) :=
  ⟨by decide, by decide,
   (empty_url_entry_stuck_pending "T" "C" [⟨"u1", "f", "k1", "t", false⟩] [] "f" "kw" "t"
      false [] [] (fun _ _ => (true, "")) (by decide) (by decide)).1.1⟩

end KeywordMonitor
